import Mathlib

/-!
Verification of the logging facility in alex/utils/mproc.py.

The file shallowly embeds the parts of the module that the specification
talks about: the two lock decorators (local_lock, global_lock), the level
table, the record formatter, the session lifecycle
(session_start / session_end / get_session_dir_name) and the central
log method of SystemLogger, together with its leveled wrappers.

Modelling conventions:
  - Python strings are Lean String values (the messages here are plain
    text, so code points line up with List Char).
  - Wall-clock readings (get_time_str) and the current process name are
    nondeterministic inputs; they are passed as explicit parameters.
  - Raised KeyError exceptions (unknown severity names) are modelled by
    an explicit error component; writes performed before the error are
    retained, as they are in the Python code.
  - A write to a destination is one element of a list of Write values;
    the two consecutive file.write calls performed under one file lock
    (record text, then a bare newline) are modelled as a single append
    of their concatenation.
-/

/-- Spaces of a given length, as produced by %-width padding. -/
def spaces (n : Nat) : String :=
  String.mk (List.replicate n ' ')

/-- Python '%-Ns' formatting: left-justify, padding with spaces on the
right up to the width (no truncation). -/
def ljust (s : String) (width : Nat) : String :=
  s ++ spaces (width - s.length)

/-- Right-justification (padding with spaces on the left up to the
width).  Used only to state the spec's reading of the layout. -/
def lpad (s : String) (width : Nat) : String :=
  spaces (width - s.length) ++ s

/-- Worker for re.sub(r'\n', '\n    ', ss): every newline character is
replaced by a newline followed by four spaces; the replacement text is
not rescanned. -/
def indentChars : List Char → List Char
  | [] => []
  | c :: cs =>
    if c = '\n' then '\n' :: ' ' :: ' ' :: ' ' :: ' ' :: indentChars cs
    else c :: indentChars cs

/-- String wrapper for indentChars. -/
def indentNewlines (s : String) : String :=
  String.mk (indentChars s.data)

/-- The ss value built inside SystemLogger.formatter:
ss = '    ' + unicode(message); ss = re.sub(r'\n', '\n    ', ss). -/
def msgBody (message : String) : String :=
  indentNewlines ("    " ++ message)

/-- os.path.join for the two-argument posix case: b if b is absolute,
a + b if a is empty or already ends with the separator, otherwise
a + '/' + b.  Stated over the character lists so that it evaluates by
kernel reduction. -/
def joinPath (a b : String) : String :=
  if b.data.head? = some '/' then b
  else if a.data = [] ∨ a.data.getLast? = some '/' then a ++ b
  else a ++ "/" ++ b

/-- The KeyError raised by a failed lookup in the levels dict. -/
inductive PyError where
  | keyError (key : String)
deriving DecidableEq, Repr

/-- One append to one of the three destinations of SystemLogger.log.
Each constructor corresponds to one write site in the source: the
print to stdout, the append to output_dir/system.log, and the append
to current_session_log_dir_name/system.log. -/
inductive Write where
  | toStdout (text : String)
  | toGlobal (path : String) (text : String)
  | toSession (path : String) (text : String)
deriving DecidableEq, Repr

/-- SystemLogger's mutable attributes, as set up by __init__.  The
directory-creation side effects of __init__ and session_start are not
modelled; note that __init__ would raise on an empty output_dir (since
os.mkdir('') fails), so constructed loggers have a nonempty output_dir,
which theorems take as a hypothesis where it matters. -/
structure SystemLogger where
  stdout_log_level : String
  stdout : Bool
  file_log_level : String
  output_dir : String
  current_session_log_dir_name : String
  _session_started : Bool
deriving DecidableEq, Repr

/-- The class-level levels dict of SystemLogger. -/
def SystemLogger.levels (lvl : String) : Option Nat :=
  if lvl = "SYSTEM-LOG" then some 0
  else if lvl = "DEBUG" then some 10
  else if lvl = "INFO" then some 20
  else if lvl = "WARNING" then some 30
  else if lvl = "CRITICAL" then some 40
  else if lvl = "EXCEPTION" then some 50
  else if lvl = "ERROR" then some 60
  else none

/-- SystemLogger.__init__(output_dir, stdout_log_level, stdout,
file_log_level): the session-directory buffer starts empty and the
session flag false. -/
def SystemLogger.init (output_dir stdout_log_level : String) (stdout : Bool)
    (file_log_level : String) : SystemLogger :=
  { stdout_log_level := stdout_log_level
    stdout := stdout
    file_log_level := file_log_level
    output_dir := output_dir
    current_session_log_dir_name := ""
    _session_started := false }

/-- SystemLogger.formatter.  timeStr stands for self.get_time_str() and
procName for multiprocessing.current_process().name; the method reads
no attribute of self. -/
def SystemLogger.formatter (_self : SystemLogger)
    (timeStr procName lvl message : String) : String :=
  let s := timeStr ++ ("  " ++ ljust procName 10 ++ " : ") ++ (ljust lvl 10 ++ " ") ++ "\n"
  let ss := indentNewlines ("    " ++ message)
  s ++ ss ++ "\n"

/-- SystemLogger.session_start(remote_uri): assign
os.path.join(output_dir, get_time_str() + '-' + remote_uri) to the
shared buffer, then call os.makedirs on it, and only after that call
returns set _session_started = True.  makedirsOk records whether
os.makedirs succeeded; when it raises (collision, permission, ...) the
error propagates to the caller with the buffer already assigned and
the flag not yet set, which is why the two assignments are separated
here. -/
def SystemLogger.session_start (st : SystemLogger)
    (timeStr remote_uri : String) (makedirsOk : Bool) : SystemLogger :=
  let session_name := timeStr ++ "-" ++ remote_uri
  let st1 := { st with
    current_session_log_dir_name := joinPath st.output_dir session_name }
  if makedirsOk then { st1 with _session_started := true } else st1

/-- SystemLogger.session_end: clear the session directory and the flag. -/
def SystemLogger.session_end (st : SystemLogger) : SystemLogger :=
  { st with
    current_session_log_dir_name := ""
    _session_started := false }

/-- SystemLogger.get_session_dir_name: the session directory if the
shared buffer is nonempty, otherwise the base output directory. -/
def SystemLogger.get_session_dir_name (st : SystemLogger) : String :=
  if st.current_session_log_dir_name ≠ "" then st.current_session_log_dir_name
  else st.output_dir

/-- The stdout block of SystemLogger.log.  Python evaluates
levels[lvl] before levels[self.stdout_log_level]; print appends a
newline to the formatted record. -/
def SystemLogger.log_stdout_part (st : SystemLogger)
    (timeStr procName lvl message : String) : List Write × Option PyError :=
  if st.stdout = true then
    match SystemLogger.levels lvl with
    | none => ([], some (PyError.keyError lvl))
    | some lv =>
      match SystemLogger.levels st.stdout_log_level with
      | none => ([], some (PyError.keyError st.stdout_log_level))
      | some sv =>
        if sv ≤ lv then
          ([Write.toStdout (st.formatter timeStr procName lvl message ++ "\n")], none)
        else ([], none)
  else ([], none)

/-- The global-file block of SystemLogger.log: guarded by the truthiness
of output_dir, filtered by file_log_level, appends the record plus a
blank line to output_dir/system.log. -/
def SystemLogger.log_global_part (st : SystemLogger)
    (timeStr procName lvl message : String) : List Write × Option PyError :=
  if st.output_dir ≠ "" then
    match SystemLogger.levels lvl with
    | none => ([], some (PyError.keyError lvl))
    | some lv =>
      match SystemLogger.levels st.file_log_level with
      | none => ([], some (PyError.keyError st.file_log_level))
      | some fv =>
        if fv ≤ lv then
          ([Write.toGlobal (joinPath st.output_dir "system.log")
              (st.formatter timeStr procName lvl message ++ "\n")], none)
        else ([], none)
  else ([], none)

/-- The session-file block of SystemLogger.log: guarded by the
truthiness of the session-directory buffer; the or in
(session_system_log or levels[lvl] >= levels[file_log_level])
short-circuits, so no lookup happens when the flag is set. -/
def SystemLogger.log_session_part (st : SystemLogger)
    (timeStr procName lvl message : String)
    (session_system_log : Bool) : List Write × Option PyError :=
  if st.current_session_log_dir_name ≠ "" then
    if session_system_log = true then
      ([Write.toSession (joinPath st.current_session_log_dir_name "system.log")
          (st.formatter timeStr procName lvl message ++ "\n")], none)
    else
      match SystemLogger.levels lvl with
      | none => ([], some (PyError.keyError lvl))
      | some lv =>
        match SystemLogger.levels st.file_log_level with
        | none => ([], some (PyError.keyError st.file_log_level))
        | some fv =>
          if fv ≤ lv then
            ([Write.toSession (joinPath st.current_session_log_dir_name "system.log")
                (st.formatter timeStr procName lvl message ++ "\n")], none)
          else ([], none)
  else ([], none)

/-- Sequencing of the blocks of log: a raised KeyError in an earlier
block stops execution, keeping the writes already performed. -/
def pySeq (a b : List Write × Option PyError) : List Write × Option PyError :=
  match a.2 with
  | some _ => a
  | none => (a.1 ++ b.1, b.2)

/-- SystemLogger.log(lvl, message, session_system_log): the three
destination blocks in source order. -/
def SystemLogger.log (st : SystemLogger)
    (timeStr procName lvl message : String)
    (session_system_log : Bool) : List Write × Option PyError :=
  pySeq (st.log_stdout_part timeStr procName lvl message)
    (pySeq (st.log_global_part timeStr procName lvl message)
      (st.log_session_part timeStr procName lvl message session_system_log))

/-- SystemLogger.info. -/
def SystemLogger.info (st : SystemLogger) (timeStr procName message : String) :
    List Write × Option PyError :=
  st.log timeStr procName "INFO" message false

/-- SystemLogger.debug. -/
def SystemLogger.debug (st : SystemLogger) (timeStr procName message : String) :
    List Write × Option PyError :=
  st.log timeStr procName "DEBUG" message false

/-- SystemLogger.warning. -/
def SystemLogger.warning (st : SystemLogger) (timeStr procName message : String) :
    List Write × Option PyError :=
  st.log timeStr procName "WARNING" message false

/-- SystemLogger.critical. -/
def SystemLogger.critical (st : SystemLogger) (timeStr procName message : String) :
    List Write × Option PyError :=
  st.log timeStr procName "CRITICAL" message false

/-- SystemLogger.error. -/
def SystemLogger.error (st : SystemLogger) (timeStr procName message : String) :
    List Write × Option PyError :=
  st.log timeStr procName "ERROR" message false

/-- SystemLogger.exception: the captured traceback text is a
nondeterministic input, appended to the message after a newline. -/
def SystemLogger.exception (st : SystemLogger)
    (timeStr procName tbText message : String) :
    List Write × Option PyError :=
  st.log timeStr procName "EXCEPTION" (message ++ "\n" ++ tbText) false

/-- SystemLogger.session_system_log: level 'SYSTEM-LOG', forced session
write. -/
def SystemLogger.session_system_log (st : SystemLogger)
    (timeStr procName message : String) : List Write × Option PyError :=
  st.log timeStr procName "SYSTEM-LOG" message true

/-- Four spaces, the indentation unit of the formatter. -/
def pad4 : List Char := [' ', ' ', ' ', ' ']

/-- Split a character list at newline characters; the result always has
one element more than the number of newlines, so it is never empty. -/
def splitNl : List Char → List (List Char)
  | [] => [[]]
  | c :: cs =>
    if c = '\n' then [] :: splitNl cs
    else
      match splitNl cs with
      | [] => [[c]]
      | l :: ls => (c :: l) :: ls

/-- The record layout that claim C1 of the specification describes:
timestamp, two spaces, left-PADDED writer identity, left-padded level
name (with no separator between them), newline, indented body, and the
trailing blank line. -/
def claimC1Render (timeStr procName lvl message : String) : String :=
  timeStr ++ "  " ++ lpad procName 10 ++ lpad lvl 10 ++ "\n"
    ++ msgBody message ++ "\n" ++ "\n"

/-- The text carried by a write, independent of its destination. -/
def Write.text : Write → String
  | Write.toStdout t => t
  | Write.toGlobal _ t => t
  | Write.toSession _ t => t

lemma splitNl_ne_nil (l : List Char) : splitNl l ≠ [] := by
  cases l with
  | nil => simp [splitNl]
  | cons c cs =>
    unfold splitNl
    by_cases hc : c = '\n'
    · simp [hc]
    · simp only [if_neg hc]
      cases splitNl cs <;> simp

lemma splitNl_newline (cs : List Char) :
    splitNl ('\n' :: cs) = [] :: splitNl cs := by
  simp [splitNl]

lemma splitNl_cons_ne {c : Char} {cs h t} (hc : c ≠ '\n')
    (hs : splitNl cs = h :: t) : splitNl (c :: cs) = (c :: h) :: t := by
  unfold splitNl
  rw [if_neg hc, hs]

lemma splitNl_append_nonl {rest h t} (a : List Char)
    (ha : ∀ c ∈ a, c ≠ '\n') (hrest : splitNl rest = h :: t) :
    splitNl (a ++ rest) = (a ++ h) :: t := by
  induction a with
  | nil => simpa using hrest
  | cons x a ih =>
    have hx : x ≠ '\n' := ha x (by simp)
    have ih2 := ih (fun c hc => ha c (by simp [hc]))
    rw [List.cons_append, splitNl_cons_ne hx ih2]
    simp

lemma indentChars_append_nonl (a l : List Char) (ha : ∀ c ∈ a, c ≠ '\n') :
    indentChars (a ++ l) = a ++ indentChars l := by
  induction a with
  | nil => simp
  | cons x a ih =>
    have hx : x ≠ '\n' := ha x (by simp)
    have h1 : indentChars (x :: (a ++ l)) = x :: indentChars (a ++ l) := by
      simp [indentChars, hx]
    rw [List.cons_append, h1, ih (fun c hc => ha c (by simp [hc])), List.cons_append]

lemma pad4_nonl : ∀ c ∈ pad4, c ≠ '\n' := by decide

/-- Core of the round-trip property: splitting the indented body at
newlines yields exactly the lines of the message, each with the
four-space prefix. -/
lemma splitNl_pad_indent (m : List Char) :
    splitNl (pad4 ++ indentChars m) = (splitNl m).map (fun l => pad4 ++ l) := by
  induction m with
  | nil => decide
  | cons c cs ih =>
    by_cases hc : c = '\n'
    · subst hc
      have h1 : indentChars ('\n' :: cs) = '\n' :: (pad4 ++ indentChars cs) := rfl
      obtain ⟨h, t, hht⟩ := List.exists_cons_of_ne_nil (splitNl_ne_nil (pad4 ++ indentChars cs))
      rw [h1, splitNl_append_nonl pad4 pad4_nonl (by rw [splitNl_newline, hht]),
        splitNl_newline, List.map_cons]
      rw [hht] at ih
      simp [ih, hht]
    · have h1 : indentChars (c :: cs) = c :: indentChars cs := by
        simp [indentChars, hc]
      obtain ⟨h, t, hht⟩ := List.exists_cons_of_ne_nil (splitNl_ne_nil (indentChars cs))
      obtain ⟨h', t', h't⟩ := List.exists_cons_of_ne_nil (splitNl_ne_nil cs)
      have hmid : splitNl (pad4 ++ (c :: indentChars cs)) = (pad4 ++ (c :: h)) :: t :=
        splitNl_append_nonl pad4 pad4_nonl (splitNl_cons_ne hc hht)
      have hplain : splitNl (pad4 ++ indentChars cs) = (pad4 ++ h) :: t :=
        splitNl_append_nonl pad4 pad4_nonl hht
      rw [hplain, h't, List.map_cons] at ih
      have hh : h = h' := List.append_cancel_left (List.head_eq_of_cons_eq ih)
      have ht : t = t'.map (fun l => pad4 ++ l) := List.tail_eq_of_cons_eq ih
      rw [h1, hmid, splitNl_cons_ne hc h't, List.map_cons, hh, ht]

lemma msgBody_data (message : String) :
    (msgBody message).data = pad4 ++ indentChars message.data := by
  have h1 : ("    " ++ message).data = pad4 ++ message.data := by
    rw [String.data_append]; rfl
  rw [msgBody, indentNewlines, h1,
    indentChars_append_nonl pad4 message.data pad4_nonl]

lemma log_stdout_part_eq (st : SystemLogger) (timeStr procName lvl message : String)
    {lv sv : Nat} (hl : SystemLogger.levels lvl = some lv)
    (hs : SystemLogger.levels st.stdout_log_level = some sv) :
    st.log_stdout_part timeStr procName lvl message =
      ((if st.stdout = true ∧ sv ≤ lv then
          [Write.toStdout (st.formatter timeStr procName lvl message ++ "\n")]
        else []), none) := by
  unfold SystemLogger.log_stdout_part
  rw [hl, hs]
  by_cases h1 : st.stdout = true <;> by_cases h2 : sv ≤ lv <;> simp [h1, h2]

lemma log_global_part_eq (st : SystemLogger) (timeStr procName lvl message : String)
    {lv fv : Nat} (hl : SystemLogger.levels lvl = some lv)
    (hf : SystemLogger.levels st.file_log_level = some fv) :
    st.log_global_part timeStr procName lvl message =
      ((if st.output_dir ≠ "" ∧ fv ≤ lv then
          [Write.toGlobal (joinPath st.output_dir "system.log")
            (st.formatter timeStr procName lvl message ++ "\n")]
        else []), none) := by
  unfold SystemLogger.log_global_part
  rw [hl, hf]
  by_cases h1 : st.output_dir ≠ "" <;> by_cases h2 : fv ≤ lv <;> simp [h1, h2]

lemma log_session_part_eq (st : SystemLogger) (timeStr procName lvl message : String)
    (force : Bool) {lv fv : Nat} (hl : SystemLogger.levels lvl = some lv)
    (hf : SystemLogger.levels st.file_log_level = some fv) :
    st.log_session_part timeStr procName lvl message force =
      ((if st.current_session_log_dir_name ≠ "" ∧ (force = true ∨ fv ≤ lv) then
          [Write.toSession (joinPath st.current_session_log_dir_name "system.log")
            (st.formatter timeStr procName lvl message ++ "\n")]
        else []), none) := by
  unfold SystemLogger.log_session_part
  rw [hl, hf]
  by_cases h1 : st.current_session_log_dir_name ≠ "" <;>
    by_cases h2 : force = true <;> by_cases h3 : fv ≤ lv <;> simp [h1, h2, h3]

/-- Closed form of SystemLogger.log when all three severity lookups
succeed: one possible write per destination, no exception. -/
lemma log_spec (st : SystemLogger) (timeStr procName lvl message : String)
    (force : Bool) {lv fv sv : Nat}
    (hl : SystemLogger.levels lvl = some lv)
    (hf : SystemLogger.levels st.file_log_level = some fv)
    (hs : SystemLogger.levels st.stdout_log_level = some sv) :
    st.log timeStr procName lvl message force =
      ((if st.stdout = true ∧ sv ≤ lv then
          [Write.toStdout (st.formatter timeStr procName lvl message ++ "\n")]
        else []) ++
       ((if st.output_dir ≠ "" ∧ fv ≤ lv then
          [Write.toGlobal (joinPath st.output_dir "system.log")
            (st.formatter timeStr procName lvl message ++ "\n")]
         else []) ++
        (if st.current_session_log_dir_name ≠ "" ∧ (force = true ∨ fv ≤ lv) then
          [Write.toSession (joinPath st.current_session_log_dir_name "system.log")
            (st.formatter timeStr procName lvl message ++ "\n")]
         else [])), none) := by
  rw [SystemLogger.log, log_stdout_part_eq st timeStr procName lvl message hl hs,
    log_global_part_eq st timeStr procName lvl message hl hf,
    log_session_part_eq st timeStr procName lvl message force hl hf]
  simp [pySeq]

lemma joinPath_ne_empty (a b : String) (hb : b ≠ "") : joinPath a b ≠ "" := by
  have hbd : b.data ≠ [] := fun he => hb (String.ext he)
  unfold joinPath
  split_ifs with h1 h2
  · exact hb
  · intro he
    have hd : (a ++ b).data = [] := by rw [he]
    rw [String.data_append] at hd
    exact hbd (List.append_eq_nil.mp hd).2
  · intro he
    have hd : (a ++ "/" ++ b).data = [] := by rw [he]
    rw [String.data_append, String.data_append] at hd
    exact hbd (List.append_eq_nil.mp hd).2

lemma session_name_ne_empty (timeStr remote_uri : String) :
    timeStr ++ "-" ++ remote_uri ≠ "" := by
  intro he
  have hd : (timeStr ++ "-" ++ remote_uri).data = [] := by rw [he]
  rw [String.data_append, String.data_append] at hd
  have := (List.append_eq_nil.mp (List.append_eq_nil.mp hd).1).2
  simp at this

/-- The public operations of a SystemLogger, for trace reasoning.  The
leveled wrappers and get_session_dir_name are listed separately so that
a trace can record every public call. -/
inductive LoggerOp where
  | start (timeStr remote_uri : String) (makedirsOk : Bool)
  | finish
  | logMsg (timeStr procName lvl message : String) (force : Bool)
  | infoMsg (timeStr procName message : String)
  | debugMsg (timeStr procName message : String)
  | warningMsg (timeStr procName message : String)
  | criticalMsg (timeStr procName message : String)
  | errorMsg (timeStr procName message : String)
  | exceptionMsg (timeStr procName tbText message : String)
  | sessionSystemLogMsg (timeStr procName message : String)
  | readDir
deriving DecidableEq, Repr

/-- State transition of one public call.  log and the leveled wrappers
assign no attribute of self, and get_session_dir_name only reads, so
only session_start and session_end change the state. -/
def stepOp (st : SystemLogger) : LoggerOp → SystemLogger
  | LoggerOp.start timeStr remote_uri makedirsOk =>
    st.session_start timeStr remote_uri makedirsOk
  | LoggerOp.finish => st.session_end
  | LoggerOp.logMsg _ _ _ _ _ => st
  | LoggerOp.infoMsg _ _ _ => st
  | LoggerOp.debugMsg _ _ _ => st
  | LoggerOp.warningMsg _ _ _ => st
  | LoggerOp.criticalMsg _ _ _ => st
  | LoggerOp.errorMsg _ _ _ => st
  | LoggerOp.exceptionMsg _ _ _ _ => st
  | LoggerOp.sessionSystemLogMsg _ _ _ => st
  | LoggerOp.readDir => st

/-- Run a list of public calls from a state. -/
def runOps (st : SystemLogger) : List LoggerOp → SystemLogger
  | [] => st
  | op :: ops => runOps (stepOp st op) ops

/-- Whether an operation is one of the two session mutators. -/
def mutatesSession : LoggerOp → Bool
  | LoggerOp.start _ _ _ => true
  | LoggerOp.finish => true
  | _ => false

lemma stepOp_preserve (st : SystemLogger) (op : LoggerOp)
    (h : mutatesSession op = false) : stepOp st op = st := by
  cases op <;> first | rfl | simp [mutatesSession] at h

lemma runOps_preserve (st : SystemLogger) (ops : List LoggerOp)
    (h : ∀ op ∈ ops, mutatesSession op = false) : runOps st ops = st := by
  induction ops with
  | nil => rfl
  | cons op ops ih =>
    rw [runOps, stepOp_preserve st op (h op (by simp))]
    exact ih (fun o ho => h o (by simp [ho]))

/-- States reachable from a freshly constructed logger through public
calls. -/
inductive Reachable : SystemLogger → Prop
  | init_state (output_dir stdout_log_level : String) (stdout : Bool)
      (file_log_level : String) :
      Reachable (SystemLogger.init output_dir stdout_log_level stdout file_log_level)
  | step_state {st : SystemLogger} (op : LoggerOp) :
      Reachable st → Reachable (stepOp st op)

/-- Events on the in-process locks used by the decorators; lockId
identifies the lock object (local_lock allocates a fresh one per
decorated function at decoration time, global_lock is handed the
caller's shared lock). -/
inductive LockEv where
  | acq (lockId : Nat)
  | rel (lockId : Nat)
deriving DecidableEq, Repr

/-- local_lock()'s wrapper around user_function: lock.acquire();
try: return user_function(...) except Exception as e: raise e
finally: lock.release().  The wrapped function is modelled as
emitting its own event trace and either returning (ok) or raising
(error); the except clause re-raises the same exception and the
finally clause appends the release on both paths. -/
def local_lock {α β E : Type} (lock : Nat)
    (user_function : α → List LockEv × Except E β) (x : α) :
    List LockEv × Except E β :=
  let r := user_function x
  (LockEv.acq lock :: (r.1 ++ [LockEv.rel lock]), r.2)

/-- global_lock(lock)'s wrapper: identical acquire/try/re-raise/finally
shape, with the caller-supplied lock. -/
def global_lock {α β E : Type} (lock : Nat)
    (user_function : α → List LockEv × Except E β) (x : α) :
    List LockEv × Except E β :=
  let r := user_function x
  (LockEv.acq lock :: (r.1 ++ [LockEv.rel lock]), r.2)

/-- Number of acquisitions of a given lock in a trace. -/
def acqCount (lockId : Nat) (tr : List LockEv) : Nat :=
  tr.count (LockEv.acq lockId)

/-- Number of releases of a given lock in a trace. -/
def relCount (lockId : Nat) (tr : List LockEv) : Nat :=
  tr.count (LockEv.rel lockId)

lemma mem_ite_singleton_iff {α : Type} {c : Prop} [Decidable c] {x a : α} :
    (x ∈ (if c then [a] else [])) ↔ (c ∧ x = a) := by
  split_ifs with h <;> simp [h]

lemma mem_pySeq {w : Write} {a b : List Write × Option PyError}
    (h : w ∈ (pySeq a b).1) : w ∈ a.1 ∨ w ∈ b.1 := by
  unfold pySeq at h
  cases ha : a.2 with
  | none => rw [ha] at h; exact List.mem_append.mp h
  | some e => rw [ha] at h; exact Or.inl h

lemma log_stdout_part_shape (st : SystemLogger) (timeStr procName lvl message : String) :
    ∀ w ∈ (st.log_stdout_part timeStr procName lvl message).1,
      ∃ s, w = Write.toStdout s := by
  intro w hw
  unfold SystemLogger.log_stdout_part at hw
  by_cases hso : st.stdout = true
  · cases hl : SystemLogger.levels lvl with
    | none => simp [hso, hl] at hw
    | some lv =>
      cases hs : SystemLogger.levels st.stdout_log_level with
      | none => simp [hso, hl, hs] at hw
      | some sv =>
        by_cases hc : sv ≤ lv
        · simp [hso, hl, hs, hc] at hw
          exact ⟨_, hw⟩
        · simp [hso, hl, hs, hc] at hw
  · simp [hso] at hw

lemma log_global_part_shape (st : SystemLogger) (timeStr procName lvl message : String) :
    ∀ w ∈ (st.log_global_part timeStr procName lvl message).1,
      ∃ p s, w = Write.toGlobal p s := by
  intro w hw
  unfold SystemLogger.log_global_part at hw
  by_cases hod : st.output_dir ≠ ""
  · cases hl : SystemLogger.levels lvl with
    | none => simp [hod, hl] at hw
    | some lv =>
      cases hf : SystemLogger.levels st.file_log_level with
      | none => simp [hod, hl, hf] at hw
      | some fv =>
        by_cases hc : fv ≤ lv
        · simp [hod, hl, hf, hc] at hw
          exact ⟨_, _, hw⟩
        · simp [hod, hl, hf, hc] at hw
  · simp [hod] at hw

lemma log_session_part_empty (st : SystemLogger)
    (timeStr procName lvl message : String) (force : Bool)
    (hd : st.current_session_log_dir_name = "") :
    st.log_session_part timeStr procName lvl message force = ([], none) := by
  unfold SystemLogger.log_session_part
  simp [hd]

lemma toSession_not_mem_of_no_session (st : SystemLogger)
    (hd : st.current_session_log_dir_name = "")
    (timeStr procName lvl message : String) (force : Bool) (p x : String) :
    Write.toSession p x ∉ (st.log timeStr procName lvl message force).1 := by
  intro hmem
  rw [SystemLogger.log, log_session_part_empty st timeStr procName lvl message force hd]
    at hmem
  rcases mem_pySeq hmem with h | h
  · obtain ⟨s, hs⟩ := log_stdout_part_shape st timeStr procName lvl message _ h
    exact Write.noConfusion hs
  · rcases mem_pySeq h with h2 | h2
    · obtain ⟨q, s, hs⟩ := log_global_part_shape st timeStr procName lvl message _ h2
      exact Write.noConfusion hs
    · simp at h2

lemma log_stdout_part_err (st : SystemLogger) (timeStr procName lvl message : String)
    (hnone : SystemLogger.levels lvl = none) :
    st.log_stdout_part timeStr procName lvl message =
      if st.stdout = true then ([], some (PyError.keyError lvl)) else ([], none) := by
  unfold SystemLogger.log_stdout_part
  rw [hnone]

lemma log_global_part_err (st : SystemLogger) (timeStr procName lvl message : String)
    (hnone : SystemLogger.levels lvl = none) :
    st.log_global_part timeStr procName lvl message =
      if st.output_dir ≠ "" then ([], some (PyError.keyError lvl)) else ([], none) := by
  unfold SystemLogger.log_global_part
  rw [hnone]

lemma log_unknown_level (st : SystemLogger) (timeStr procName lvl message : String)
    (force : Bool) (hnone : SystemLogger.levels lvl = none)
    (hod : st.output_dir ≠ "") :
    st.log timeStr procName lvl message force = ([], some (PyError.keyError lvl)) := by
  rw [SystemLogger.log, log_stdout_part_err st timeStr procName lvl message hnone,
    log_global_part_err st timeStr procName lvl message hnone]
  by_cases h : st.stdout = true <;> simp [h, hod, pySeq]

lemma reachable_flag_dir {st : SystemLogger} (h : Reachable st) :
    st._session_started = true → st.current_session_log_dir_name ≠ "" := by
  induction h with
  | init_state output_dir stdout_log_level stdout file_log_level =>
    intro hh
    simp [SystemLogger.init] at hh
  | step_state op hst ih =>
    cases op with
    | start timeStr remote_uri makedirsOk =>
      intro _
      cases makedirsOk <;>
        (simp only [stepOp, SystemLogger.session_start]
         simp [joinPath_ne_empty _ _ (session_name_ne_empty timeStr remote_uri)])
    | finish =>
      intro hh
      simp [stepOp, SystemLogger.session_end] at hh
    | logMsg t n l m f => exact ih
    | infoMsg t n m => exact ih
    | debugMsg t n m => exact ih
    | warningMsg t n m => exact ih
    | criticalMsg t n m => exact ih
    | errorMsg t n m => exact ih
    | exceptionMsg t n tb m => exact ih
    | sessionSystemLogMsg t n m => exact ih
    | readDir => exact ih

/-- Whether an operation is a session_start whose os.makedirs call
failed; every other operation counts as succeeded. -/
def startSucceeded : LoggerOp → Bool
  | LoggerOp.start _ _ makedirsOk => makedirsOk
  | _ => true

lemma stepOp_invariant (st : SystemLogger) (op : LoggerOp)
    (hst : st._session_started = true ↔ st.current_session_log_dir_name ≠ "")
    (hop : startSucceeded op = true) :
    (stepOp st op)._session_started = true ↔
      (stepOp st op).current_session_log_dir_name ≠ "" := by
  cases op with
  | start timeStr remote_uri makedirsOk =>
    have hok : makedirsOk = true := by simpa [startSucceeded] using hop
    subst hok
    simp only [stepOp, SystemLogger.session_start]
    simp [joinPath_ne_empty _ _ (session_name_ne_empty timeStr remote_uri)]
  | finish => simp [stepOp, SystemLogger.session_end]
  | logMsg t n l m f => exact hst
  | infoMsg t n m => exact hst
  | debugMsg t n m => exact hst
  | warningMsg t n m => exact hst
  | criticalMsg t n m => exact hst
  | errorMsg t n m => exact hst
  | exceptionMsg t n tb m => exact hst
  | sessionSystemLogMsg t n m => exact hst
  | readDir => exact hst

lemma runOps_invariant (st : SystemLogger) (ops : List LoggerOp)
    (hst : st._session_started = true ↔ st.current_session_log_dir_name ≠ "")
    (hops : ∀ op ∈ ops, startSucceeded op = true) :
    (runOps st ops)._session_started = true ↔
      (runOps st ops).current_session_log_dir_name ≠ "" := by
  induction ops generalizing st with
  | nil => exact hst
  | cons op ops ih =>
    rw [runOps]
    exact ih (stepOp st op)
      (stepOp_invariant st op hst (hops op (by simp)))
      (fun o ho => hops o (by simp [ho]))

/-- Claim C9: splitting the formatted message body at newlines yields
exactly the lines of the original message, in order, each prefixed with
exactly four spaces, and stripping four characters from each line
recovers the message's lines. -/
theorem claim_C9 (message : String) :
    splitNl (msgBody message).data
      = (splitNl message.data).map (fun l => pad4 ++ l) ∧
    (∀ line ∈ splitNl (msgBody message).data, line.take 4 = pad4) ∧
    (splitNl (msgBody message).data).map (fun line => line.drop 4)
      = splitNl message.data := by
  have h : splitNl (msgBody message).data
      = (splitNl message.data).map (fun l => pad4 ++ l) := by
    rw [msgBody_data]; exact splitNl_pad_indent message.data
  refine ⟨h, ?_, ?_⟩
  · intro line hline
    rw [h] at hline
    obtain ⟨l, _, rfl⟩ := List.mem_map.mp hline
    rfl
  · rw [h, List.map_map]
    have hcomp : ((fun line => List.drop 4 line) ∘ fun l => pad4 ++ l)
        = (id : List Char → List Char) := by
      funext l; rfl
    rw [hcomp, List.map_id]

/-- Claim C1 (counterexample): at a concrete level and message the
record actually written is 'T  p          : DEBUG      \n    m\n\n',
which is not the layout the claim describes (left-padded fields, no
separator): the writer identity and level name are left-justified
(padded on the right) and separated by ' : ', with a space after the
level field. -/
theorem claim_C1_counterexample :
    (SystemLogger.init "out" "DEBUG" true "DEBUG").log "T" "p" "DEBUG" "m" false
      = ([Write.toStdout "T  p          : DEBUG      \n    m\n\n",
          Write.toGlobal "out/system.log" "T  p          : DEBUG      \n    m\n\n"],
         none)
    ∧ "T  p          : DEBUG      \n    m\n\n" ≠ claimC1Render "T" "p" "DEBUG" "m" := by
  constructor
  · rfl
  · decide

/-- Claim C1 (amended): every destination of a log call receives the
same rendered record (for a fixed timestamp): the timestamp, two
spaces, the writer identity left-justified (padded on the right) to
width 10, the separator ' : ', the level name left-justified to width
10, a space, a newline, then the message body in which every line
starts with four spaces, a terminating newline, and a trailing blank
line. -/
theorem claim_C1_amended (st : SystemLogger)
    (timeStr procName lvl message : String) (force : Bool) {lv fv sv : Nat}
    (hl : SystemLogger.levels lvl = some lv)
    (hf : SystemLogger.levels st.file_log_level = some fv)
    (hs : SystemLogger.levels st.stdout_log_level = some sv) :
    (∀ w ∈ (st.log timeStr procName lvl message force).1,
        w.text = st.formatter timeStr procName lvl message ++ "\n") ∧
    st.formatter timeStr procName lvl message ++ "\n"
      = timeStr ++ "  " ++ ljust procName 10 ++ " : " ++ ljust lvl 10 ++ " " ++ "\n"
          ++ msgBody message ++ "\n" ++ "\n" ∧
    (∀ line ∈ splitNl (msgBody message).data, line.take 4 = pad4) := by
  refine ⟨?_, ?_, ?_⟩
  · intro w hw
    rw [log_spec st timeStr procName lvl message force hl hf hs] at hw
    simp only [List.mem_append] at hw
    rcases hw with h | h | h <;>
      rcases mem_ite_singleton_iff.mp h with ⟨_, rfl⟩ <;> rfl
  · simp [SystemLogger.formatter, msgBody, String.append_assoc]
  · intro line hline
    rw [msgBody_data, splitNl_pad_indent] at hline
    obtain ⟨l, _, rfl⟩ := List.mem_map.mp hline
    rfl

/-- Witness for claim C1 (amended), at a concrete logger and inputs. -/
theorem claim_C1_witness :
    SystemLogger.levels "DEBUG" = some 10 ∧
    (SystemLogger.init "out" "DEBUG" true "DEBUG").formatter "T" "p" "DEBUG" "m" ++ "\n"
      = "T" ++ "  " ++ ljust "p" 10 ++ " : " ++ ljust "DEBUG" 10 ++ " " ++ "\n"
          ++ msgBody "m" ++ "\n" ++ "\n" :=
  ⟨rfl, (claim_C1_amended (SystemLogger.init "out" "DEBUG" true "DEBUG")
    "T" "p" "DEBUG" "m" false rfl rfl rfl).2.1⟩

/-- Claim C8: both lock decorators acquire their lock before the
wrapped function runs and release it on every exit path: the trace is
acquire, then the body's own events, then the release; a returned
value is passed through and a raised exception propagates, in both
cases with acquisitions and releases balanced. -/
theorem claim_C8 {α β E : Type} (lock : Nat)
    (f : α → List LockEv × Except E β) (x : α)
    (hbal : acqCount lock (f x).1 = relCount lock (f x).1) :
    (local_lock lock f x).1 = LockEv.acq lock :: ((f x).1 ++ [LockEv.rel lock]) ∧
    (local_lock lock f x).1.head? = some (LockEv.acq lock) ∧
    (local_lock lock f x).1.getLast? = some (LockEv.rel lock) ∧
    acqCount lock (local_lock lock f x).1 = relCount lock (local_lock lock f x).1 ∧
    (∀ v, (f x).2 = Except.ok v → (local_lock lock f x).2 = Except.ok v) ∧
    (∀ e, (f x).2 = Except.error e → (local_lock lock f x).2 = Except.error e) ∧
    (global_lock lock f x).1 = LockEv.acq lock :: ((f x).1 ++ [LockEv.rel lock]) ∧
    (global_lock lock f x).1.getLast? = some (LockEv.rel lock) ∧
    acqCount lock (global_lock lock f x).1 = relCount lock (global_lock lock f x).1 ∧
    (∀ v, (f x).2 = Except.ok v → (global_lock lock f x).2 = Except.ok v) ∧
    (∀ e, (f x).2 = Except.error e → (global_lock lock f x).2 = Except.error e) := by
  have hlast : (LockEv.acq lock :: ((f x).1 ++ [LockEv.rel lock])).getLast?
      = some (LockEv.rel lock) := by
    rw [show LockEv.acq lock :: ((f x).1 ++ [LockEv.rel lock])
        = (LockEv.acq lock :: (f x).1) ++ [LockEv.rel lock] from rfl]
    exact List.getLast?_concat _
  have hcount : acqCount lock (LockEv.acq lock :: ((f x).1 ++ [LockEv.rel lock]))
      = relCount lock (LockEv.acq lock :: ((f x).1 ++ [LockEv.rel lock])) := by
    simp [acqCount, relCount, List.count_cons, List.count_append] at hbal ⊢
    omega
  exact ⟨rfl, rfl, hlast, hcount, fun v hv => hv, fun e he => he, rfl, hlast, hcount,
    fun v hv => hv, fun e he => he⟩

/-- Witness for claim C8: a body with an empty trace that returns 7. -/
theorem claim_C8_witness :
    acqCount 0 (([], Except.ok 7) : List LockEv × Except String Nat).1
      = relCount 0 (([], Except.ok 7) : List LockEv × Except String Nat).1 ∧
    (local_lock 0 (fun _ : Nat => (([], Except.ok 7) : List LockEv × Except String Nat)) 1).1
      = LockEv.acq 0 :: ([] ++ [LockEv.rel 0]) :=
  ⟨rfl, (claim_C8 0 (fun _ => ([], Except.ok 7)) 1 rfl).1⟩

/-- Claim C2: a log call appends the record to system.log under the
session directory exactly when the session buffer is nonempty and
(forceSessionLog or level at or above the file threshold); right after
session_start a record at or above the file threshold reaches both the
global and the session file, and right after session_end the same call
reaches only the global file. -/
theorem claim_C2 (st : SystemLogger) (timeStr procName lvl message : String)
    (force : Bool) {lv fv sv : Nat}
    (hl : SystemLogger.levels lvl = some lv)
    (hf : SystemLogger.levels st.file_log_level = some fv)
    (hs : SystemLogger.levels st.stdout_log_level = some sv) :
    (Write.toSession (joinPath st.current_session_log_dir_name "system.log")
        (st.formatter timeStr procName lvl message ++ "\n")
      ∈ (st.log timeStr procName lvl message force).1
      ↔ st.current_session_log_dir_name ≠ "" ∧ (force = true ∨ fv ≤ lv)) ∧
    (∀ t0 uri, st.output_dir ≠ "" → fv ≤ lv →
      Write.toGlobal (joinPath st.output_dir "system.log")
          (st.formatter timeStr procName lvl message ++ "\n")
        ∈ ((st.session_start t0 uri true).log timeStr procName lvl message force).1 ∧
      Write.toSession
          (joinPath (joinPath st.output_dir (t0 ++ "-" ++ uri)) "system.log")
          (st.formatter timeStr procName lvl message ++ "\n")
        ∈ ((st.session_start t0 uri true).log timeStr procName lvl message force).1) ∧
    (∀ t0 uri, st.output_dir ≠ "" → fv ≤ lv →
      Write.toGlobal (joinPath st.output_dir "system.log")
          (st.formatter timeStr procName lvl message ++ "\n")
        ∈ ((st.session_start t0 uri true).session_end.log
            timeStr procName lvl message force).1 ∧
      ∀ p x, Write.toSession p x
        ∉ ((st.session_start t0 uri true).session_end.log
            timeStr procName lvl message force).1) := by
  refine ⟨?_, ?_, ?_⟩
  · rw [log_spec st timeStr procName lvl message force hl hf hs]
    simp [List.mem_append, mem_ite_singleton_iff]
  · intro t0 uri hod hge
    have hd : joinPath st.output_dir (t0 ++ "-" ++ uri) ≠ "" :=
      joinPath_ne_empty _ _ (session_name_ne_empty t0 uri)
    constructor
    · rw [log_spec (st.session_start t0 uri true) timeStr procName lvl message force hl hf hs]
      simp [List.mem_append, mem_ite_singleton_iff, SystemLogger.session_start,
        SystemLogger.formatter, hod, hge]
    · rw [log_spec (st.session_start t0 uri true) timeStr procName lvl message force hl hf hs]
      simp [List.mem_append, mem_ite_singleton_iff, SystemLogger.session_start,
        SystemLogger.formatter, hd, hge]
  · intro t0 uri hod hge
    constructor
    · rw [log_spec ((st.session_start t0 uri true).session_end)
        timeStr procName lvl message force hl hf hs]
      simp [List.mem_append, mem_ite_singleton_iff, SystemLogger.session_start,
        SystemLogger.session_end, SystemLogger.formatter, hod, hge]
    · intro p x
      exact toSession_not_mem_of_no_session ((st.session_start t0 uri true).session_end)
        rfl timeStr procName lvl message force p x

/-- Witness for claim C2, on a logger with both thresholds DEBUG and an
active session. -/
theorem claim_C2_witness :
    SystemLogger.levels "INFO" = some 20 ∧
    (Write.toSession
        (joinPath (((SystemLogger.init "o" "DEBUG" true "DEBUG").session_start
          "T0" "u" true).current_session_log_dir_name) "system.log")
        (((SystemLogger.init "o" "DEBUG" true "DEBUG").session_start "T0" "u" true).formatter
          "T" "p" "INFO" "m" ++ "\n")
      ∈ (((SystemLogger.init "o" "DEBUG" true "DEBUG").session_start "T0" "u" true).log
          "T" "p" "INFO" "m" false).1) :=
  ⟨rfl, (claim_C2 ((SystemLogger.init "o" "DEBUG" true "DEBUG").session_start "T0" "u" true)
      "T" "p" "INFO" "m" false rfl rfl rfl).1.mpr
    ⟨by decide, Or.inr (by decide)⟩⟩

/-- Claim C3: a log call appends the record plus a blank line to
system.log under the base output directory exactly when an output
directory is configured and the level is at or above the file
threshold, independent of the session state; below the threshold no
global-file write occurs at all. -/
theorem claim_C3 (st : SystemLogger) (timeStr procName lvl message : String)
    (force : Bool) {lv fv sv : Nat}
    (hl : SystemLogger.levels lvl = some lv)
    (hf : SystemLogger.levels st.file_log_level = some fv)
    (hs : SystemLogger.levels st.stdout_log_level = some sv) :
    (Write.toGlobal (joinPath st.output_dir "system.log")
        (st.formatter timeStr procName lvl message ++ "\n")
      ∈ (st.log timeStr procName lvl message force).1
      ↔ st.output_dir ≠ "" ∧ fv ≤ lv) ∧
    (lv < fv → ∀ p x,
      Write.toGlobal p x ∉ (st.log timeStr procName lvl message force).1) := by
  refine ⟨?_, ?_⟩
  · rw [log_spec st timeStr procName lvl message force hl hf hs]
    simp [List.mem_append, mem_ite_singleton_iff]
  · intro hlt p x hmem
    have hnf : ¬ fv ≤ lv := by omega
    rw [log_spec st timeStr procName lvl message force hl hf hs] at hmem
    simp [List.mem_append, mem_ite_singleton_iff, hnf] at hmem

/-- Witness for claim C3: file threshold WARNING, record at CRITICAL
goes to the global file even with a session active. -/
theorem claim_C3_witness :
    SystemLogger.levels "CRITICAL" = some 40 ∧
    (Write.toGlobal
        (joinPath (((SystemLogger.init "o" "DEBUG" true "WARNING").session_start
          "T0" "u" true).output_dir) "system.log")
        (((SystemLogger.init "o" "DEBUG" true "WARNING").session_start "T0" "u" true).formatter
          "T" "p" "CRITICAL" "m" ++ "\n")
      ∈ (((SystemLogger.init "o" "DEBUG" true "WARNING").session_start "T0" "u" true).log
          "T" "p" "CRITICAL" "m" false).1) :=
  ⟨rfl, (claim_C3 ((SystemLogger.init "o" "DEBUG" true "WARNING").session_start "T0" "u" true)
      "T" "p" "CRITICAL" "m" false rfl rfl rfl).1.mpr
    ⟨by decide, by decide⟩⟩

/-- Claim C4: session_system_log is exactly log with level 'SYSTEM-LOG'
(the enumeration member the specification writes SYSTEM_LOG) and the
force flag set, and with a session active the record reaches the
session file whatever the configured file threshold is. -/
theorem claim_C4 (st : SystemLogger) (timeStr procName message : String)
    {fv sv : Nat}
    (hf : SystemLogger.levels st.file_log_level = some fv)
    (hs : SystemLogger.levels st.stdout_log_level = some sv) :
    st.session_system_log timeStr procName message
      = st.log timeStr procName "SYSTEM-LOG" message true ∧
    (st.current_session_log_dir_name ≠ "" →
      Write.toSession (joinPath st.current_session_log_dir_name "system.log")
          (st.formatter timeStr procName "SYSTEM-LOG" message ++ "\n")
        ∈ (st.session_system_log timeStr procName message).1) := by
  refine ⟨rfl, fun hd => ?_⟩
  rw [SystemLogger.session_system_log,
    log_spec st timeStr procName "SYSTEM-LOG" message true rfl hf hs]
  simp [List.mem_append, mem_ite_singleton_iff, hd]

/-- Witness for claim C4: both thresholds ERROR, yet the SYSTEM-LOG
record reaches the session file. -/
theorem claim_C4_witness :
    SystemLogger.levels "ERROR" = some 60 ∧
    (Write.toSession
        (joinPath (((SystemLogger.init "o" "ERROR" true "ERROR").session_start
          "T0" "u" true).current_session_log_dir_name) "system.log")
        (((SystemLogger.init "o" "ERROR" true "ERROR").session_start "T0" "u" true).formatter
          "T" "p" "SYSTEM-LOG" "m" ++ "\n")
      ∈ (((SystemLogger.init "o" "ERROR" true "ERROR").session_start "T0" "u" true).session_system_log
          "T" "p" "m").1) :=
  ⟨rfl, (claim_C4 ((SystemLogger.init "o" "ERROR" true "ERROR").session_start "T0" "u" true)
      "T" "p" "m" rfl rfl).2 (by decide)⟩

/-- Claim C5: a record strictly below both thresholds, without the
force flag, produces no write to any destination and leaves the logger
state unchanged. -/
theorem claim_C5 (st : SystemLogger) (timeStr procName lvl message : String)
    {lv fv sv : Nat}
    (hl : SystemLogger.levels lvl = some lv)
    (hf : SystemLogger.levels st.file_log_level = some fv)
    (hs : SystemLogger.levels st.stdout_log_level = some sv)
    (h1 : lv < sv) (h2 : lv < fv) :
    st.log timeStr procName lvl message false = ([], none) ∧
    stepOp st (LoggerOp.logMsg timeStr procName lvl message false) = st := by
  refine ⟨?_, rfl⟩
  have hns : ¬ sv ≤ lv := by omega
  have hnf : ¬ fv ≤ lv := by omega
  rw [log_spec st timeStr procName lvl message false hl hf hs]
  simp [hns, hnf]

/-- Witness for claim C5: thresholds WARNING and ERROR, record at INFO. -/
theorem claim_C5_witness :
    (20 : Nat) < 30 ∧
    (SystemLogger.init "o" "WARNING" true "ERROR").log "T" "p" "INFO" "m" false
      = ([], none) :=
  ⟨by decide,
    (claim_C5 (SystemLogger.init "o" "WARNING" true "ERROR") "T" "p" "INFO" "m"
      rfl rfl rfl (by decide) (by decide)).1⟩

/-- Claim C6: get_session_dir_name returns the base output directory on
a fresh logger and after any session_end, and between a session_start
and the next session-mutating call it returns the directory stored by
that session_start, whatever non-mutating public calls happen in
between; it is a total function, so the no-session case returns rather
than raising. -/
theorem claim_C6 :
    (∀ output_dir stdout_log_level stdout file_log_level,
      (SystemLogger.init output_dir stdout_log_level stdout
        file_log_level).get_session_dir_name = output_dir) ∧
    (∀ st : SystemLogger, st.session_end.get_session_dir_name = st.output_dir) ∧
    (∀ (st : SystemLogger) (timeStr remote_uri : String) (ops : List LoggerOp),
      (∀ op ∈ ops, mutatesSession op = false) →
      (runOps (stepOp st (LoggerOp.start timeStr remote_uri true)) ops).get_session_dir_name
        = joinPath st.output_dir (timeStr ++ "-" ++ remote_uri)) := by
  refine ⟨?_, ?_, ?_⟩
  · intro output_dir stdout_log_level stdout file_log_level
    simp [SystemLogger.init, SystemLogger.get_session_dir_name]
  · intro st
    simp [SystemLogger.session_end, SystemLogger.get_session_dir_name]
  · intro st timeStr remote_uri ops hops
    rw [runOps_preserve _ ops hops]
    have hne : joinPath st.output_dir (timeStr ++ "-" ++ remote_uri) ≠ "" :=
      joinPath_ne_empty _ _ (session_name_ne_empty timeStr remote_uri)
    simp [stepOp, SystemLogger.session_start, SystemLogger.get_session_dir_name, hne]

/-- Witness for claim C6: a start followed by two non-mutating calls
still reports the session directory. -/
theorem claim_C6_witness :
    (∀ op ∈ [LoggerOp.infoMsg "T1" "p" "x", LoggerOp.readDir],
      mutatesSession op = false) ∧
    (runOps (stepOp (SystemLogger.init "o" "DEBUG" true "DEBUG")
        (LoggerOp.start "T0" "u" true))
        [LoggerOp.infoMsg "T1" "p" "x", LoggerOp.readDir]).get_session_dir_name
      = joinPath "o" ("T0" ++ "-" ++ "u") :=
  ⟨by decide,
    claim_C6.2.2 (SystemLogger.init "o" "DEBUG" true "DEBUG") "T0" "u"
      [LoggerOp.infoMsg "T1" "p" "x", LoggerOp.readDir] (by decide)⟩

/-- Claim C7 (counterexample): the spelled-out name SYSTEM_LOG from the
claim is not in the level table — the table's key is 'SYSTEM-LOG' with
a hyphen — so logging with the claimed name raises a KeyError. -/
theorem claim_C7_counterexample :
    SystemLogger.levels "SYSTEM_LOG" = none ∧
    SystemLogger.levels "SYSTEM-LOG" = some 0 ∧
    (SystemLogger.init "out" "DEBUG" true "DEBUG").log "T" "p" "SYSTEM_LOG" "m" false
      = ([], some (PyError.keyError "SYSTEM_LOG")) :=
  ⟨rfl, rfl, rfl⟩

/-- Claim C7 (amended): the logger accepts exactly the seven severity
names 'SYSTEM-LOG' (hyphenated) = 0, DEBUG = 10, INFO = 20,
WARNING = 30, CRITICAL = 40, EXCEPTION = 50, ERROR = 60; filtering is
numeric comparison against the destination's threshold, and a log call
with any other level string stops with a KeyError and performs no
write (the output directory being nonempty, as construction
guarantees). -/
theorem claim_C7_amended :
    (∀ lvl, (SystemLogger.levels lvl).isSome = true ↔
      lvl = "SYSTEM-LOG" ∨ lvl = "DEBUG" ∨ lvl = "INFO" ∨ lvl = "WARNING" ∨
      lvl = "CRITICAL" ∨ lvl = "EXCEPTION" ∨ lvl = "ERROR") ∧
    (SystemLogger.levels "SYSTEM-LOG" = some 0 ∧
     SystemLogger.levels "DEBUG" = some 10 ∧
     SystemLogger.levels "INFO" = some 20 ∧
     SystemLogger.levels "WARNING" = some 30 ∧
     SystemLogger.levels "CRITICAL" = some 40 ∧
     SystemLogger.levels "EXCEPTION" = some 50 ∧
     SystemLogger.levels "ERROR" = some 60) ∧
    (∀ (st : SystemLogger) (timeStr procName lvl message : String) (force : Bool),
      SystemLogger.levels lvl = none → st.output_dir ≠ "" →
      st.log timeStr procName lvl message force
        = ([], some (PyError.keyError lvl))) ∧
    (∀ (st : SystemLogger) (timeStr procName lvl message : String) (force : Bool)
        (lv sv fv : Nat),
      SystemLogger.levels lvl = some lv →
      SystemLogger.levels st.file_log_level = some fv →
      SystemLogger.levels st.stdout_log_level = some sv →
      (Write.toStdout (st.formatter timeStr procName lvl message ++ "\n")
          ∈ (st.log timeStr procName lvl message force).1
        ↔ st.stdout = true ∧ sv ≤ lv)) := by
  refine ⟨?_, ⟨rfl, rfl, rfl, rfl, rfl, rfl, rfl⟩, ?_, ?_⟩
  · intro lvl
    unfold SystemLogger.levels
    split_ifs <;> simp_all
  · intro st timeStr procName lvl message force hnone hod
    exact log_unknown_level st timeStr procName lvl message force hnone hod
  · intro st timeStr procName lvl message force lv sv fv hl hf hs
    rw [log_spec st timeStr procName lvl message force hl hf hs]
    simp [List.mem_append, mem_ite_singleton_iff]

/-- Witness for claim C7 (amended): an unknown name raises and writes
nothing. -/
theorem claim_C7_witness :
    SystemLogger.levels "BOGUS" = none ∧
    (SystemLogger.init "o" "DEBUG" true "DEBUG").log "T" "p" "BOGUS" "m" false
      = ([], some (PyError.keyError "BOGUS")) :=
  ⟨rfl, claim_C7_amended.2.2.1 (SystemLogger.init "o" "DEBUG" true "DEBUG")
    "T" "p" "BOGUS" "m" false rfl (by decide)⟩

/-- Claim C10 (counterexample): session_start assigns the shared
buffer before calling os.makedirs and sets _session_started only
after that call returns, so when os.makedirs raises the program is
left in a reachable state with a nonempty buffer and a false flag:
the claimed iff-invariant fails there, and get_session_dir_name
follows the buffer, not the flag. -/
theorem claim_C10_counterexample :
    Reachable (stepOp (SystemLogger.init "o" "DEBUG" true "DEBUG")
      (LoggerOp.start "T0" "u" false)) ∧
    (stepOp (SystemLogger.init "o" "DEBUG" true "DEBUG")
      (LoggerOp.start "T0" "u" false))._session_started = false ∧
    (stepOp (SystemLogger.init "o" "DEBUG" true "DEBUG")
      (LoggerOp.start "T0" "u" false)).current_session_log_dir_name = "o/T0-u" ∧
    ¬((stepOp (SystemLogger.init "o" "DEBUG" true "DEBUG")
        (LoggerOp.start "T0" "u" false))._session_started = true ↔
      (stepOp (SystemLogger.init "o" "DEBUG" true "DEBUG")
        (LoggerOp.start "T0" "u" false)).current_session_log_dir_name ≠ "") ∧
    (stepOp (SystemLogger.init "o" "DEBUG" true "DEBUG")
      (LoggerOp.start "T0" "u" false)).get_session_dir_name = "o/T0-u" :=
  ⟨Reachable.step_state (LoggerOp.start "T0" "u" false)
      (Reachable.init_state "o" "DEBUG" true "DEBUG"),
    rfl, rfl, by decide, rfl⟩

/-- Claim C10 (amended): in every reachable state the flag implies a
nonempty buffer; in every state reached through operations whose
directory creation succeeded the flag is true exactly when the buffer
is nonempty; and log and get_session_dir_name decide whether a session
is active by the buffer's non-emptiness alone (returning the buffer
and allowing session writes when it is nonempty, falling back to the
output directory and never writing a session record when it is
empty), so they agree with the flag exactly in the states reached
without a failed session_start. -/
theorem claim_C10_amended :
    (∀ st : SystemLogger, Reachable st →
      st._session_started = true → st.current_session_log_dir_name ≠ "") ∧
    (∀ (output_dir stdout_log_level : String) (stdout : Bool)
        (file_log_level : String) (ops : List LoggerOp),
      (∀ op ∈ ops, startSucceeded op = true) →
      ((runOps (SystemLogger.init output_dir stdout_log_level stdout
          file_log_level) ops)._session_started = true ↔
        (runOps (SystemLogger.init output_dir stdout_log_level stdout
          file_log_level) ops).current_session_log_dir_name ≠ "")) ∧
    (∀ st : SystemLogger,
      (st.current_session_log_dir_name ≠ "" →
        st.get_session_dir_name = st.current_session_log_dir_name) ∧
      (st.current_session_log_dir_name = "" →
        st.get_session_dir_name = st.output_dir) ∧
      (st.current_session_log_dir_name = "" →
        ∀ (timeStr procName lvl message : String) (force : Bool) (p x : String),
          Write.toSession p x ∉ (st.log timeStr procName lvl message force).1)) := by
  refine ⟨?_, ?_, ?_⟩
  · intro st h
    exact reachable_flag_dir h
  · intro output_dir stdout_log_level stdout file_log_level ops hops
    exact runOps_invariant _ ops (by simp [SystemLogger.init]) hops
  · intro st
    refine ⟨?_, ?_, ?_⟩
    · intro hd
      simp [SystemLogger.get_session_dir_name, hd]
    · intro hd
      simp [SystemLogger.get_session_dir_name, hd]
    · intro hd timeStr procName lvl message force p x
      exact toSession_not_mem_of_no_session st hd
        timeStr procName lvl message force p x

/-- Witness for claim C10 (amended): after a successful start followed
by an end, the flag and the buffer agree. -/
theorem claim_C10_witness :
    (∀ op ∈ [LoggerOp.start "T0" "u" true, LoggerOp.finish],
      startSucceeded op = true) ∧
    ((runOps (SystemLogger.init "o" "DEBUG" true "DEBUG")
        [LoggerOp.start "T0" "u" true, LoggerOp.finish])._session_started = true ↔
      (runOps (SystemLogger.init "o" "DEBUG" true "DEBUG")
        [LoggerOp.start "T0" "u" true,
          LoggerOp.finish]).current_session_log_dir_name ≠ "") :=
  ⟨by decide, claim_C10_amended.2.1 "o" "DEBUG" true "DEBUG"
    [LoggerOp.start "T0" "u" true, LoggerOp.finish] (by decide)⟩
